import Mathlib

/-
Shallow embedding of src/src/canopy_server/app.py (the Canopy HTTP server
facade). The knowledge base, context engine, chat engine, LLM client and
tokenizer are opaque collaborators (they live outside this file, per the
spec's section 1); each is embedded as an explicit oracle parameter of type
`... → Except String ...`, where `Except.error e` models the collaborator
raising an exception whose text is `e`. `run_in_threadpool` awaits the
wrapped synchronous call and re-raises its exceptions, so it is semantically
transparent and not modelled separately. Log emission is modelled as an
explicit list of the correlation log entries a handler writes on its
exception paths (plus the unconditional info logs); level filtering and
formatting of the logging module are not modelled.
-/

set_option maxHeartbeats 1000000

namespace Canopy

/-- Modelled from the spec: a chat message is a role plus text (section 3,
ChatRequest: "each a role + text"). `canopy.models.data_models` is not under
src/. -/
structure Message where
  role : String
  content : String
deriving Repr, DecidableEq

/-- Modelled from the spec: `UserMessage(content=...)` constructs a message
with the user role (`canopy.models.data_models` is not under src/). -/
def UserMessage (content : String) : Message :=
  ⟨"user", content⟩

/-- Modelled from the spec: ChatRequest carries an ordered message sequence,
a stream flag and an optional session identifier (the `user` field). The
request record itself lives in `canopy_server.api_models`, not under src/;
only the three fields read by `app.py` are modelled. -/
structure ChatRequest where
  messages : List Message
  stream : Bool
  user : Option String
deriving Repr, DecidableEq

/-- Modelled from the spec: the non-streaming chat answer, an aggregate
response with an identifier field that the handler overwrites
(`canopy.models.api_models.ChatResponse` is not under src/); the body
besides the identifier is opaque. -/
structure ChatResponse where
  id : String
  payload : String
deriving Repr, DecidableEq

/-- Modelled from the spec: one incremental piece of a streamed chat
response, with an identifier field the handler overwrites before
serialization; the rest of the chunk is opaque. -/
structure StreamingChatChunk where
  id : String
  payload : String
deriving Repr, DecidableEq

/-- Pydantic serialization `chunk.json()` of a chunk, modelled as a concrete
injective rendering of its two modelled fields. -/
def StreamingChatChunk.json (chunk : StreamingChatChunk) : String :=
  "\x7b\"id\": \"" ++ chunk.id ++ "\", \"data\": " ++ chunk.payload ++ "\x7d"

/-- The in-place mutation `chunk.id = question_id` of the source, as a
functional update. -/
def StreamingChatChunk.withId (chunk : StreamingChatChunk) (new_id : String) :
    StreamingChatChunk :=
  ⟨new_id, chunk.payload⟩

/-- The in-place mutation `chat_response.id = question_id` of the source, as
a functional update. -/
def ChatResponse.withId (response : ChatResponse) (new_id : String) :
    ChatResponse :=
  ⟨new_id, response.payload⟩

instance {ε α : Type} [DecidableEq ε] [DecidableEq α] : DecidableEq (Except ε α) :=
  fun x y =>
    match x, y with
    | .ok a, .ok b => decidable_of_iff (a = b) (by simp)
    | .ok _, .error _ => isFalse (by simp)
    | .error _, .ok _ => isFalse (by simp)
    | .error e, .error f => decidable_of_iff (e = f) (by simp)

/-- Modelled from the spec: a streaming chat answer is a lazy, finite,
non-restartable sequence of fragments (section 4.2) whose production may
raise partway (section 7). An entry `Except.error e` means iterating the
underlying chunk iterator raises with text `e` at that point; entries after
it are never produced. -/
structure StreamingChatResponse where
  chunks : List (Except String StreamingChatChunk)
deriving Repr, DecidableEq

/-- The value returned by `chat_engine.chat`: either an aggregate response
(stream=False) or a streaming one (stream=True). The source trusts this
correspondence via unchecked `cast`. -/
inductive ChatAnswer where
  | single (response : ChatResponse)
  | streaming (response : StreamingChatResponse)
deriving Repr, DecidableEq

/-- Modelled from the spec: the context object returned by the context
engine has a content portion plus internal metadata (modelled by its token
count); only `content` is returned by the query handler
(`canopy.models.data_models.Context` is not under src/). -/
structure Context where
  content : String
  num_tokens : Nat
deriving Repr, DecidableEq

/-- Modelled from the spec: a document has a unique identifier, text and
metadata (section 3); the record lives outside src/. -/
structure Document where
  id : String
  text : String
  metadata : String
deriving Repr, DecidableEq

/-- Modelled from the spec: ContextQueryRequest is an ordered sequence of
query strings plus a maximum-token budget (record lives outside src/). -/
structure ContextQueryRequest where
  queries : List String
  max_tokens : Nat
deriving Repr, DecidableEq

/-- Modelled from the spec: ContextUpsertRequest is an ordered document list
plus a batch size (record lives outside src/). -/
structure ContextUpsertRequest where
  documents : List Document
  batch_size : Nat
deriving Repr, DecidableEq

/-- Modelled from the spec: ContextDeleteRequest is a list of document
identifiers to remove (record lives outside src/). -/
structure ContextDeleteRequest where
  document_ids : List String
deriving Repr, DecidableEq

/-- Modelled from the spec: fixed-shape health status record with the two
probe status fields (record lives outside src/). -/
structure HealthStatus where
  pinecone_status : String
  llm_status : String
deriving Repr, DecidableEq

/-- Modelled from the spec: fixed success acknowledgement of the upsert
handler (record lives outside src/). -/
inductive SuccessUpsertResponse where
  | mk
deriving Repr, DecidableEq

/-- Modelled from the spec: fixed success acknowledgement of the delete
handler (record lives outside src/). -/
inductive SuccessDeleteResponse where
  | mk
deriving Repr, DecidableEq

/-- Outcome of a request handler: a normal value, or a raised
`HTTPException(status_code=..., detail=...)`. -/
inductive HTTPResult (α : Type) where
  | ok (value : α)
  | httpException (status_code : Nat) (detail : String)
deriving Repr, DecidableEq

/-- The `APIChatResponse` union of the source: a plain chat response body,
or an `EventSourceResponse` holding the not-yet-consumed fragment
generator together with its media type. -/
inductive APIChatResponse where
  | chatResponse (response : ChatResponse)
  | eventSource (content_stream : List (Except String String)) (media_type : String)
deriving Repr, DecidableEq

/-- A handler outcome paired with the log entries the handler wrote. -/
structure Handled (α : Type) where
  result : HTTPResult α
  logs : List String
deriving Repr, DecidableEq

/-- One step of the `stringify_content` generator body: stamp the chunk with
the generated request identifier, then serialize it; an exception raised by
the underlying chunk iterator passes through. -/
def stamp_and_serialize (question_id : String)
    (step : Except String StreamingChatChunk) : Except String String :=
  match step with
  | .ok chunk => .ok (StreamingChatChunk.json (chunk.withId question_id))
  | .error e => .error e

/-- The `stringify_content` generator of the chat handler. Calling it builds
the lazy sequence without forcing it; each produced element is the stamped,
serialized chunk, and a failure of the underlying iterator surfaces at its
position. -/
def stringify_content (question_id : String) (response : StreamingChatResponse) :
    List (Except String String) :=
  response.chunks.map (stamp_and_serialize question_id)

/-- Modelled from the spec: the server-sent-event transport consumes the
lazy fragment sequence after the handler has returned, delivering fragments
until the sequence ends or its production raises; a mid-stream raise aborts
delivery after the fragments already sent (spec sections 5 and 7). -/
def emittedFragments : List (Except String String) → List String
  | [] => []
  | .ok data :: rest => data :: emittedFragments rest
  | .error _ :: _ => []

/-- The chat handler (`chat`, app.py lines 74-110). `chat_engine_chat` is
the opaque chat engine operation; `question_id` is the value of
`str(uuid.uuid4())`, passed as a parameter since identifier generation is
nondeterministic. An empty message list makes line 87's
`request.messages[-1]` raise IndexError inside the try block. The two
mismatch branches model the unchecked `cast` calls: a non-streaming answer
on the streaming path only fails later, inside the generator, while a
streaming answer on the non-streaming path fails inside the try block when
the missing `id` field is assigned. -/
def chat (chat_engine_chat : List Message → Bool → Except String ChatAnswer)
    (question_id : String) (request : ChatRequest) : Handled APIChatResponse :=
  let _session_id := request.user.getD "None"
  let failure_log := "Chat with question_id " ++ question_id ++ " failed"
  if request.messages.isEmpty then
    ⟨.httpException 500 ("Internal Service Error: " ++ "list index out of range"),
     [failure_log]⟩
  else
    match chat_engine_chat request.messages request.stream with
    | .error e =>
      ⟨.httpException 500 ("Internal Service Error: " ++ e), [failure_log]⟩
    | .ok answer =>
      if request.stream then
        match answer with
        | .streaming response =>
          ⟨.ok (.eventSource (stringify_content question_id response)
            "text/event-stream"), []⟩
        | .single _ =>
          ⟨.ok (.eventSource [.error "AttributeError"] "text/event-stream"), []⟩
      else
        match answer with
        | .single chat_response =>
          ⟨.ok (.chatResponse (chat_response.withId question_id)), []⟩
        | .streaming _ =>
          ⟨.httpException 500 ("Internal Service Error: " ++ "ValueError"),
           [failure_log]⟩

/-- The context query handler (`query`, app.py lines 120-139).
`context_engine_query` is the opaque `context_engine.query` operation,
taking the query list and the `max_context_tokens` budget. -/
def query (context_engine_query : List String → Nat → Except String Context)
    (request : ContextQueryRequest) : Handled String :=
  match context_engine_query request.queries request.max_tokens with
  | .ok context => ⟨.ok context.content, []⟩
  | .error e => ⟨.httpException 500 ("Internal Service Error: " ++ e), [e]⟩

/-- The upsert handler (`upsert`, app.py lines 147-167). `kb_upsert` is the
opaque `kb.upsert` operation, taking the document list and batch size. -/
def upsert (kb_upsert : List Document → Nat → Except String Unit)
    (request : ContextUpsertRequest) : Handled SuccessUpsertResponse :=
  let info_log := "Upserting " ++ toString request.documents.length ++ " documents"
  match kb_upsert request.documents request.batch_size with
  | .ok _ => ⟨.ok .mk, [info_log]⟩
  | .error e =>
    ⟨.httpException 500 ("Internal Service Error: " ++ e), [info_log, e]⟩

/-- The delete handler (`delete`, app.py lines 175-188). `kb_delete` is the
opaque `kb.delete` operation, taking the identifier list. -/
def delete (kb_delete : List String → Except String Unit)
    (request : ContextDeleteRequest) : Handled SuccessDeleteResponse :=
  let info_log := "Delete " ++ toString request.document_ids.length ++ " documents"
  match kb_delete request.document_ids with
  | .ok _ => ⟨.ok .mk, [info_log]⟩
  | .error e =>
    ⟨.httpException 500 ("Internal Service Error: " ++ e), [info_log, e]⟩

/-- The probe message the health check sends to the LLM (app.py line 211). -/
def health_check_message : Message :=
  UserMessage "This is a health check. Are you alive? Be concise"

/-- The health check handler (`health_check`, app.py lines 197-220).
`kb_verify_index_connection` is the opaque index-connectivity probe,
`kb_index_name` the value of `kb._index_name`, `llm_chat_completion` the
opaque `llm.chat_completion` operation (messages, max_tokens) whose
successful result is discarded, and `llm_class_name` the value of
`llm.__class__.__name__`. -/
def health_check (kb_verify_index_connection : Except String Unit)
    (kb_index_name : String)
    (llm_chat_completion : List Message → Nat → Except String String)
    (llm_class_name : String) : Handled HealthStatus :=
  match kb_verify_index_connection with
  | .error e =>
    let err_msg := "Failed connecting to Pinecone Index " ++ kb_index_name
    ⟨.httpException 500 (err_msg ++ ". Error: " ++ e), [err_msg]⟩
  | .ok _ =>
    match llm_chat_completion [health_check_message] 50 with
    | .error e =>
      let err_msg := "Failed to communicate with " ++ llm_class_name
      ⟨.httpException 500 (err_msg ++ ". Error: " ++ e), [err_msg]⟩
    | .ok _ => ⟨.ok ⟨"OK", "OK"⟩, []⟩

/-- A parsed top-level YAML configuration: keys mapped to opaque renderings
of their subtrees (what `yaml.safe_load` returns at the granularity
`_load_config` inspects it). -/
abbrev ConfigDict := List (String × String)

/-- Opaque rendering of the empty-dict default of `config.get("tokenizer", \x7b\x7d)`. -/
def emptyDict : String := "\x7b\x7d"

/-- Error raised out of startup initialization: `ValueError`, the
`ConfigError` of `canopy_cli.errors`, or any other exception propagating
uncaught. -/
inductive InitError where
  | valueError (msg : String)
  | configError (msg : String)
  | uncaught (msg : String)
deriving Repr, DecidableEq

/-- The four process-wide collaborator handles assigned by startup; the
handles are opaque, modelled as identifiers. -/
structure EngineSet where
  kb : String
  context_engine : String
  chat_engine : String
  llm : String
deriving Repr, DecidableEq

/-- The `_load_config` function (app.py lines 289-317). `yaml_safe_load`
bundles opening and parsing the file at the given path;
`tokenizer_init_from_config` is the opaque `Tokenizer.initialize_from_config`
(whose failure propagates uncaught, since no try wraps lines 298-299);
`chat_engine_from_config` is the opaque `ChatEngine.from_config`, bundled
with the derivation of llm, context engine and knowledge base from the
constructed chat engine (lines 315-317). -/
def _load_config (yaml_safe_load : String → Except String ConfigDict)
    (tokenizer_init_from_config : String → Except String Unit)
    (chat_engine_from_config : String → Except String EngineSet)
    (config_file : String) : Except InitError EngineSet :=
  match yaml_safe_load config_file with
  | .error e =>
    .error (.configError
      ("Failed to load config file " ++ config_file ++ ". Error: " ++ e))
  | .ok config =>
    let tokenizer_config := (config.lookup "tokenizer").getD emptyDict
    match tokenizer_init_from_config tokenizer_config with
    | .error e => .error (.uncaught e)
    | .ok _ =>
      match config.lookup "chat_engine" with
      | none =>
        .error (.configError ("Config file " ++ config_file ++
          " must contain a \x27chat_engine\x27 section"))
      | some chat_engine_config =>
        match chat_engine_from_config chat_engine_config with
        | .error e =>
          .error (.configError
            ("Failed to initialize chat engine from config file " ++
              config_file ++ ". Error: " ++ e))
        | .ok engines => .ok engines

/-- The `_init_engines` function (app.py lines 264-286). `getenv` is the
process environment; Python's `if not index_name` treats both an unset and
an empty variable as absent, and likewise for `CANOPY_CONFIG_FILE`.
`tokenizer_init` is the opaque no-argument `Tokenizer.initialize` of the
default path, `default_engines` bundles the default-path constructions of
lines 281-284 (knowledge base, context engine, LLM client, chat engine from
the index name), and `kb_connect` is the opaque `kb.connect` applied to the
knowledge-base handle; exceptions of all three propagate uncaught. -/
def _init_engines (getenv : String → Option String)
    (yaml_safe_load : String → Except String ConfigDict)
    (tokenizer_init_from_config : String → Except String Unit)
    (chat_engine_from_config : String → Except String EngineSet)
    (tokenizer_init : Except String Unit)
    (default_engines : String → Except String EngineSet)
    (kb_connect : String → Except String Unit) : Except InitError EngineSet :=
  match getenv "INDEX_NAME" with
  | none => .error (.valueError "INDEX_NAME environment variable must be set")
  | some index_name =>
    if index_name = "" then
      .error (.valueError "INDEX_NAME environment variable must be set")
    else
      let default_path : Except InitError EngineSet :=
        match tokenizer_init with
        | .error e => .error (.uncaught e)
        | .ok _ =>
          match default_engines index_name with
          | .error e => .error (.uncaught e)
          | .ok engines => .ok engines
      let engines_result :=
        match getenv "CANOPY_CONFIG_FILE" with
        | none => default_path
        | some config_file =>
          if config_file = "" then default_path
          else
            _load_config yaml_safe_load tokenizer_init_from_config
              chat_engine_from_config config_file
      match engines_result with
      | .error err => .error err
      | .ok engines =>
        match kb_connect engines.kb with
        | .error e => .error (.uncaught e)
        | .ok _ => .ok engines

/-- Modelled from the spec: the HTTP routes become reachable only when the
startup event (which runs `_init_engines`) completes without raising; a
startup failure aborts the process before any request is served. -/
def routes_reachable (init_result : Except InitError EngineSet) : Bool :=
  init_result.toOption.isSome

/-- Evaluation of the chat handler when the delegated chat-engine call
raises: the exception is caught, converted to a 500 embedding its text, and
logged with the generated request identifier. -/
theorem chat_of_engine_error
    (chat_engine_chat : List Message → Bool → Except String ChatAnswer)
    (question_id : String) (msgs : List Message) (stream : Bool)
    (user : Option String) (e : String)
    (hne : msgs ≠ []) (hcall : chat_engine_chat msgs stream = .error e) :
    chat chat_engine_chat question_id ⟨msgs, stream, user⟩ =
      ⟨.httpException 500 ("Internal Service Error: " ++ e),
       ["Chat with question_id " ++ question_id ++ " failed"]⟩ := by
  cases msgs with
  | nil => exact absurd rfl hne
  | cons m ms => simp [chat, hcall]

/-- Evaluation of the chat handler on an empty message list: line 87's
`request.messages[-1]` raises IndexError inside the try block, which is
caught and converted to a 500. -/
theorem chat_of_empty_messages
    (chat_engine_chat : List Message → Bool → Except String ChatAnswer)
    (question_id : String) (stream : Bool) (user : Option String) :
    chat chat_engine_chat question_id ⟨[], stream, user⟩ =
      ⟨.httpException 500 ("Internal Service Error: " ++ "list index out of range"),
       ["Chat with question_id " ++ question_id ++ " failed"]⟩ := by
  simp [chat]

/-- Evaluation of the chat handler on the streaming path: the handler
returns the event-source response holding the stamped-and-serialized lazy
fragment sequence, with media type "text/event-stream". -/
theorem chat_of_streaming
    (chat_engine_chat : List Message → Bool → Except String ChatAnswer)
    (question_id : String) (msgs : List Message) (user : Option String)
    (s : StreamingChatResponse)
    (hne : msgs ≠ []) (hcall : chat_engine_chat msgs true = .ok (.streaming s)) :
    chat chat_engine_chat question_id ⟨msgs, true, user⟩ =
      ⟨.ok (.eventSource (stringify_content question_id s) "text/event-stream"),
       []⟩ := by
  cases msgs with
  | nil => exact absurd rfl hne
  | cons m ms => simp [chat, hcall]

/-- Evaluation of the chat handler on the non-streaming path: the aggregate
response is returned with its identifier field overwritten by the generated
request identifier. -/
theorem chat_of_single
    (chat_engine_chat : List Message → Bool → Except String ChatAnswer)
    (question_id : String) (msgs : List Message) (user : Option String)
    (r : ChatResponse)
    (hne : msgs ≠ []) (hcall : chat_engine_chat msgs false = .ok (.single r)) :
    chat chat_engine_chat question_id ⟨msgs, false, user⟩ =
      ⟨.ok (.chatResponse (r.withId question_id)), []⟩ := by
  cases msgs with
  | nil => exact absurd rfl hne
  | cons m ms => simp [chat, hcall]

/-- Every fragment the transport delivers from a stamped-and-serialized
stream is the serialization of a chunk whose identifier is the generated
request identifier. -/
theorem emitted_stringify_all_stamped (question_id : String)
    (chunks : List (Except String StreamingChatChunk)) :
    ∀ data ∈ emittedFragments (stringify_content question_id ⟨chunks⟩),
      ∃ payload, data = StreamingChatChunk.json ⟨question_id, payload⟩ := by
  induction chunks with
  | nil => intro data hd; simp [stringify_content, emittedFragments] at hd
  | cons step rest ih =>
    intro data hd
    cases step with
    | ok c =>
      have hshape : emittedFragments (stringify_content question_id ⟨Except.ok c :: rest⟩) =
          StreamingChatChunk.json (c.withId question_id) ::
            emittedFragments (stringify_content question_id ⟨rest⟩) := rfl
      rw [hshape] at hd
      rcases List.mem_cons.mp hd with h | h
      · exact ⟨c.payload, by rw [h]; rfl⟩
      · exact ih data h
    | error e =>
      have hshape : emittedFragments (stringify_content question_id ⟨Except.error e :: rest⟩) =
          [] := rfl
      rw [hshape] at hd
      simp at hd

def c1_failing_engine : List Message → Bool → Except String ChatAnswer :=
  fun _ stream =>
    if stream then
      .ok (.streaming ⟨[.ok ⟨"old", "p0"⟩, .error "boom"]⟩)
    else .error "unused"

def c1_request : ChatRequest := ⟨[⟨"user", "hi"⟩], true, none⟩

/-- Claim C1, counterexample: with stream=true and a chunk stream whose
production raises after its first chunk, the handler returns a 200
event-source response rather than an HTTP 500 naming the exception, and the
transport delivers the fragment produced before the failure — the streaming
path runs outside the handler's try/except, so the claim's "including the
streaming path ... no partial-result delivery" fails on the code. -/
theorem c1_counterexample :
    chat c1_failing_engine "qid-1" c1_request =
      ⟨.ok (.eventSource
          [.ok (StreamingChatChunk.json ⟨"qid-1", "p0"⟩), .error "boom"]
          "text/event-stream"), []⟩
    ∧ (chat c1_failing_engine "qid-1" c1_request).result ≠
        .httpException 500 ("Internal Service Error: " ++ "boom")
    ∧ emittedFragments
        [.ok (StreamingChatChunk.json ⟨"qid-1", "p0"⟩), .error "boom"] =
        [StreamingChatChunk.json ⟨"qid-1", "p0"⟩] := by
  refine ⟨rfl, ?_, rfl⟩
  intro h
  exact absurd h (by simp [chat, c1_failing_engine, c1_request])

/-- Claim C1 (amended): every exception raised inside the chat handler's
try block — the delegated chat-engine call raising, or the request logging
line failing on an empty message list — is caught, logged with the
generated request identifier, and surfaced as an HTTP 500 whose message
embeds the exception text; but on the streaming path the handler returns
the event-source response before any fragment is produced, so a failure
during fragment production is not converted to a 500 and fragments
produced before the failure are delivered. -/
theorem c1_chat_exception_containment
    (chat_engine_chat : List Message → Bool → Except String ChatAnswer)
    (question_id : String) (request : ChatRequest) :
    (∀ e, request.messages ≠ [] →
      chat_engine_chat request.messages request.stream = .error e →
      chat chat_engine_chat question_id request =
        ⟨.httpException 500 ("Internal Service Error: " ++ e),
         ["Chat with question_id " ++ question_id ++ " failed"]⟩)
    ∧ (request.messages = [] →
      chat chat_engine_chat question_id request =
        ⟨.httpException 500 ("Internal Service Error: " ++ "list index out of range"),
         ["Chat with question_id " ++ question_id ++ " failed"]⟩)
    ∧ (∀ s, request.messages ≠ [] → request.stream = true →
      chat_engine_chat request.messages true = .ok (.streaming s) →
      chat chat_engine_chat question_id request =
        ⟨.ok (.eventSource (stringify_content question_id s) "text/event-stream"),
         []⟩) := by
  obtain ⟨msgs, stream, user⟩ := request
  refine ⟨?_, ?_, ?_⟩
  · intro e hne hcall
    exact chat_of_engine_error _ _ _ _ _ _ hne hcall
  · intro hnil
    have : msgs = [] := hnil
    subst this
    exact chat_of_empty_messages _ _ _ _
  · intro s hne hstream hcall
    have : stream = true := hstream
    subst this
    exact chat_of_streaming _ _ _ _ _ hne hcall

/-- Claim C1 (amended), witness at a concrete input: a chat-engine call
raising "boom" yields a 500 embedding the text, logged with the request
identifier. -/
theorem c1_witness :
    chat (fun _ _ => Except.error "boom") "q0" ⟨[⟨"user", "hi"⟩], false, none⟩ =
      ⟨.httpException 500 ("Internal Service Error: " ++ "boom"),
       ["Chat with question_id " ++ "q0" ++ " failed"]⟩ :=
  (c1_chat_exception_containment (fun _ _ => Except.error "boom") "q0"
      ⟨[⟨"user", "hi"⟩], false, none⟩).1 "boom" (List.cons_ne_nil _ _) rfl

/-- Claim C2: for a streaming request, the handler returns the
event-source response with content type "text/event-stream" whose fragment
sequence is the chunk stream stamped with the freshly generated request
identifier and serialized, and every fragment the transport delivers is the
serialization of a chunk carrying exactly that identifier. -/
theorem c2_stream_fragments_carry_question_id
    (chat_engine_chat : List Message → Bool → Except String ChatAnswer)
    (question_id : String) (request : ChatRequest) (s : StreamingChatResponse)
    (hne : request.messages ≠ []) (hstream : request.stream = true)
    (hcall : chat_engine_chat request.messages true = .ok (.streaming s)) :
    chat chat_engine_chat question_id request =
      ⟨.ok (.eventSource (stringify_content question_id s) "text/event-stream"),
       []⟩
    ∧ ∀ data ∈ emittedFragments (stringify_content question_id s),
        ∃ payload, data = StreamingChatChunk.json ⟨question_id, payload⟩ := by
  obtain ⟨msgs, stream, user⟩ := request
  have hst : stream = true := hstream
  subst hst
  refine ⟨chat_of_streaming _ _ _ _ _ hne hcall, ?_⟩
  obtain ⟨chunks⟩ := s
  exact emitted_stringify_all_stamped question_id chunks

/-- Claim C2, witness at a concrete input. -/
theorem c2_witness :
    chat (fun _ _ => Except.ok (ChatAnswer.streaming ⟨[Except.ok ⟨"old", "p0"⟩]⟩))
        "q0" ⟨[⟨"user", "hi"⟩], true, none⟩ =
      ⟨.ok (.eventSource (stringify_content "q0" ⟨[Except.ok ⟨"old", "p0"⟩]⟩)
        "text/event-stream"), []⟩ :=
  (c2_stream_fragments_carry_question_id
      (fun _ _ => Except.ok (ChatAnswer.streaming ⟨[Except.ok ⟨"old", "p0"⟩]⟩))
      "q0" ⟨[⟨"user", "hi"⟩], true, none⟩ ⟨[Except.ok ⟨"old", "p0"⟩]⟩
      (List.cons_ne_nil _ _) rfl rfl).1

/-- Claim C3: a successful non-streaming chat returns the aggregate
response with its identifier field set to the freshly generated request
identifier, and two calls whose generated identifiers differ return
responses with distinct identifier fields. -/
theorem c3_nonstream_response_id_fresh
    (engine1 engine2 : List Message → Bool → Except String ChatAnswer)
    (qid1 qid2 : String) (request1 request2 : ChatRequest)
    (r1 r2 : ChatResponse)
    (hne1 : request1.messages ≠ []) (hs1 : request1.stream = false)
    (hc1 : engine1 request1.messages false = .ok (.single r1))
    (hne2 : request2.messages ≠ []) (hs2 : request2.stream = false)
    (hc2 : engine2 request2.messages false = .ok (.single r2)) :
    chat engine1 qid1 request1 = ⟨.ok (.chatResponse (r1.withId qid1)), []⟩
    ∧ (r1.withId qid1).id = qid1
    ∧ chat engine2 qid2 request2 = ⟨.ok (.chatResponse (r2.withId qid2)), []⟩
    ∧ (r2.withId qid2).id = qid2
    ∧ (qid1 ≠ qid2 → (r1.withId qid1).id ≠ (r2.withId qid2).id) := by
  obtain ⟨msgs1, stream1, user1⟩ := request1
  obtain ⟨msgs2, stream2, user2⟩ := request2
  have h1 : stream1 = false := hs1
  have h2 : stream2 = false := hs2
  subst h1; subst h2
  exact ⟨chat_of_single _ _ _ _ _ hne1 hc1, rfl,
    chat_of_single _ _ _ _ _ hne2 hc2, rfl, fun h => h⟩

/-- Claim C3, witness at a concrete input: a successful non-streaming call
with generated identifier "q1" returns a response whose id is "q1", and a
second call generating "q2" yields a distinct response id. -/
theorem c3_witness :
    chat (fun _ _ => Except.ok (ChatAnswer.single ⟨"stale", "body"⟩)) "q1"
        ⟨[⟨"user", "hi"⟩], false, none⟩ =
      ⟨.ok (.chatResponse (ChatResponse.withId ⟨"stale", "body"⟩ "q1")), []⟩
    ∧ (ChatResponse.withId ⟨"stale", "body"⟩ "q1").id ≠
        (ChatResponse.withId ⟨"stale", "body"⟩ "q2").id := by
  have h := c3_nonstream_response_id_fresh
    (fun _ _ => Except.ok (ChatAnswer.single ⟨"stale", "body"⟩))
    (fun _ _ => Except.ok (ChatAnswer.single ⟨"stale", "body"⟩))
    "q1" "q2" ⟨[⟨"user", "hi"⟩], false, none⟩ ⟨[⟨"user", "hi"⟩], false, none⟩
    ⟨"stale", "body"⟩ ⟨"stale", "body"⟩
    (List.cons_ne_nil _ _) rfl rfl (List.cons_ne_nil _ _) rfl rfl
  exact ⟨h.1, h.2.2.2.2 (by decide)⟩

/-- Claim C10: the optional session identifier (the `user` field) is read
into a local variable and never used again — two requests identical except
for it produce identical handler outcomes for every chat engine, and the
outcome depends on the chat engine only through its value at the request's
message list and stream flag. -/
theorem c10_session_id_noninterference
    (question_id : String) (msgs : List Message) (stream : Bool)
    (u1 u2 : Option String) :
    (∀ engine : List Message → Bool → Except String ChatAnswer,
      chat engine question_id ⟨msgs, stream, u1⟩ =
        chat engine question_id ⟨msgs, stream, u2⟩)
    ∧ (∀ engine1 engine2 : List Message → Bool → Except String ChatAnswer,
      engine1 msgs stream = engine2 msgs stream →
      chat engine1 question_id ⟨msgs, stream, u1⟩ =
        chat engine2 question_id ⟨msgs, stream, u2⟩) := by
  constructor
  · intro engine
    rfl
  · intro engine1 engine2 hagree
    simp only [chat]
    rw [hagree]

/-- Claim C10, witness at a concrete input: two requests differing only in
the session identifier, handled by two engines agreeing at the shared
message list and stream flag, produce the same outcome. -/
theorem c10_witness :
    chat (fun _ _ => Except.error "x") "q" ⟨[⟨"user", "hi"⟩], false, some "alice"⟩ =
      chat (fun _ _ => Except.error "x") "q" ⟨[⟨"user", "hi"⟩], false, none⟩ :=
  (c10_session_id_noninterference "q" [⟨"user", "hi"⟩] false
      (some "alice") none).2 _ _ rfl

/-- Claim C4: the query handler invokes the context engine's query
operation with the request's query list and a token budget exactly equal to
the request's max_tokens field (the outcome depends on the engine only
through its value at that exact argument pair), and on success returns only
the content portion of the resulting context object, discarding its other
metadata; an engine exception becomes a 500 embedding its text. -/
theorem c4_query_exact_budget_content_only
    (context_engine_query : List String → Nat → Except String Context)
    (request : ContextQueryRequest) :
    (∀ ctx, context_engine_query request.queries request.max_tokens = .ok ctx →
      query context_engine_query request = ⟨.ok ctx.content, []⟩)
    ∧ (∀ g : List String → Nat → Except String Context,
      context_engine_query request.queries request.max_tokens =
        g request.queries request.max_tokens →
      query context_engine_query request = query g request)
    ∧ (∀ e, context_engine_query request.queries request.max_tokens = .error e →
      query context_engine_query request =
        ⟨.httpException 500 ("Internal Service Error: " ++ e), [e]⟩) := by
  refine ⟨?_, ?_, ?_⟩
  · intro ctx hok
    simp [query, hok]
  · intro g hagree
    simp only [query]
    rw [hagree]
  · intro e herr
    simp [query, herr]

/-- Claim C4, witness at a concrete input: the content of the returned
context is delivered and its token-count metadata discarded. -/
theorem c4_witness :
    query (fun _ _ => Except.ok ⟨"snippets", 7⟩) ⟨["q"], 32⟩ =
      ⟨.ok "snippets", []⟩ :=
  (c4_query_exact_budget_content_only (fun _ _ => Except.ok ⟨"snippets", 7⟩)
    ⟨["q"], 32⟩).1 ⟨"snippets", 7⟩ rfl

/-- Claim C5: when both the index-connectivity probe and the LLM
chat-completion probe (issued with the fixed probe message and a 50-token
cap) succeed, the health check returns the fixed OK/OK status record; when
the index probe fails, it raises a 500 whose message names the Pinecone
index and embeds the underlying error text; when only the LLM probe fails,
it raises a 500 whose message names the LLM client's class and embeds the
underlying error text. -/
theorem c5_health_check_probes
    (kb_verify_index_connection : Except String Unit) (kb_index_name : String)
    (llm_chat_completion : List Message → Nat → Except String String)
    (llm_class_name : String) :
    (∀ r, kb_verify_index_connection = .ok () →
      llm_chat_completion [health_check_message] 50 = .ok r →
      health_check kb_verify_index_connection kb_index_name llm_chat_completion
        llm_class_name = ⟨.ok ⟨"OK", "OK"⟩, []⟩)
    ∧ (∀ e, kb_verify_index_connection = .error e →
      health_check kb_verify_index_connection kb_index_name llm_chat_completion
        llm_class_name =
        ⟨.httpException 500 ("Failed connecting to Pinecone Index " ++
            kb_index_name ++ ". Error: " ++ e),
         ["Failed connecting to Pinecone Index " ++ kb_index_name]⟩)
    ∧ (∀ e, kb_verify_index_connection = .ok () →
      llm_chat_completion [health_check_message] 50 = .error e →
      health_check kb_verify_index_connection kb_index_name llm_chat_completion
        llm_class_name =
        ⟨.httpException 500 ("Failed to communicate with " ++ llm_class_name ++
            ". Error: " ++ e),
         ["Failed to communicate with " ++ llm_class_name]⟩) := by
  refine ⟨?_, ?_, ?_⟩
  · intro r hkb hllm
    simp [health_check, hkb, hllm]
  · intro e hkb
    simp [health_check, hkb]
  · intro e hkb hllm
    simp [health_check, hkb, hllm]

/-- Claim C5, witness at a concrete input: both probes succeed and the
fixed OK/OK record is returned. -/
theorem c5_witness :
    health_check (Except.ok ()) "canopy--idx" (fun _ _ => Except.ok "pong")
        "OpenAILLM" = ⟨.ok ⟨"OK", "OK"⟩, []⟩ :=
  (c5_health_check_probes (Except.ok ()) "canopy--idx"
    (fun _ _ => Except.ok "pong") "OpenAILLM").1 "pong" rfl rfl

/-- Claim C6: the upsert handler passes the request's document list itself
(same documents, same order, no deduplication) and the requested batch size
to the knowledge base's upsert operation — its outcome depends on that
operation only through its value at exactly that argument pair — and when
the operation returns, the handler returns the fixed success
acknowledgement. -/
theorem c6_upsert_passes_list_unmodified
    (kb_upsert : List Document → Nat → Except String Unit)
    (request : ContextUpsertRequest) :
    (kb_upsert request.documents request.batch_size = .ok () →
      upsert kb_upsert request =
        ⟨.ok .mk,
         ["Upserting " ++ toString request.documents.length ++ " documents"]⟩)
    ∧ (∀ g : List Document → Nat → Except String Unit,
      kb_upsert request.documents request.batch_size =
        g request.documents request.batch_size →
      upsert kb_upsert request = upsert g request) := by
  constructor
  · intro hok
    simp [upsert, hok]
  · intro g hagree
    simp only [upsert]
    rw [hagree]

/-- Claim C6, witness at a concrete input: a batch holding two documents
with the same identifier is passed through unmodified and acknowledged. -/
theorem c6_witness :
    upsert (fun _ _ => Except.ok ())
        ⟨[⟨"a", "t1", "m1"⟩, ⟨"a", "t2", "m2"⟩], 100⟩ =
      ⟨.ok .mk, ["Upserting 2 documents"]⟩ :=
  (c6_upsert_passes_list_unmodified (fun _ _ => Except.ok ())
    ⟨[⟨"a", "t1", "m1"⟩, ⟨"a", "t2", "m2"⟩], 100⟩).1 rfl

/-- Claim C7: whenever the delegated knowledge-base delete call returns
without raising — for any identifier list, including identifiers that never
existed — the delete handler returns the fixed success acknowledgement;
this layer inspects nothing about the identifiers and produces no
not-found error. -/
theorem c7_delete_success_ack
    (kb_delete : List String → Except String Unit)
    (request : ContextDeleteRequest)
    (hok : kb_delete request.document_ids = .ok ()) :
    delete kb_delete request =
      ⟨.ok .mk,
       ["Delete " ++ toString request.document_ids.length ++ " documents"]⟩ := by
  simp [delete, hok]

/-- Claim C7, witness at a concrete input: deleting a missing identifier
still returns the success acknowledgement. -/
theorem c7_witness :
    delete (fun _ => Except.ok ()) ⟨["missing-id"]⟩ =
      ⟨.ok .mk, ["Delete 1 documents"]⟩ :=
  c7_delete_success_ack (fun _ => Except.ok ()) ⟨["missing-id"]⟩ rfl

/-- Claim C8: when the INDEX_NAME environment variable is unset or empty,
`_init_engines` raises the fatal ValueError no matter what any collaborator
constructor would do (so no collaborator is constructed), and the routes
never become reachable. -/
theorem c8_init_engines_requires_index_name
    (getenv : String → Option String)
    (yaml_safe_load : String → Except String ConfigDict)
    (tokenizer_init_from_config : String → Except String Unit)
    (chat_engine_from_config : String → Except String EngineSet)
    (tokenizer_init : Except String Unit)
    (default_engines : String → Except String EngineSet)
    (kb_connect : String → Except String Unit)
    (h : getenv "INDEX_NAME" = none ∨ getenv "INDEX_NAME" = some "") :
    _init_engines getenv yaml_safe_load tokenizer_init_from_config
        chat_engine_from_config tokenizer_init default_engines kb_connect =
      .error (.valueError "INDEX_NAME environment variable must be set")
    ∧ routes_reachable (_init_engines getenv yaml_safe_load
        tokenizer_init_from_config chat_engine_from_config tokenizer_init
        default_engines kb_connect) = false := by
  have h1 : _init_engines getenv yaml_safe_load tokenizer_init_from_config
      chat_engine_from_config tokenizer_init default_engines kb_connect =
      .error (.valueError "INDEX_NAME environment variable must be set") := by
    rcases h with h | h <;> simp [_init_engines, h]
  exact ⟨h1, by rw [h1]; rfl⟩

/-- Claim C8, witness at a concrete input: an environment with no
INDEX_NAME makes initialization fail with the fatal ValueError. -/
theorem c8_witness :
    _init_engines (fun _ => none) (fun _ => Except.error "e")
        (fun _ => Except.ok ()) (fun _ => Except.error "e") (Except.ok ())
        (fun _ => Except.error "e") (fun _ => Except.ok ()) =
      Except.error (InitError.valueError
        "INDEX_NAME environment variable must be set") :=
  (c8_init_engines_requires_index_name (fun _ => none) (fun _ => Except.error "e")
    (fun _ => Except.ok ()) (fun _ => Except.error "e") (Except.ok ())
    (fun _ => Except.error "e") (fun _ => Except.ok ()) (Or.inl rfl)).1

/-- Claim C9: a configuration file that parses successfully but lacks a
"chat_engine" section makes `_load_config` raise the fatal ConfigError
(provided the tokenizer initialization it performs first does not itself
raise), and a startup resolving that file from CANOPY_CONFIG_FILE leaves
the routes unreachable. -/
theorem c9_config_missing_chat_engine_section
    (yaml_safe_load : String → Except String ConfigDict)
    (tokenizer_init_from_config : String → Except String Unit)
    (chat_engine_from_config : String → Except String EngineSet)
    (config_file : String) (config : ConfigDict)
    (hparse : yaml_safe_load config_file = .ok config)
    (hmissing : config.lookup "chat_engine" = none)
    (htok : tokenizer_init_from_config
      ((config.lookup "tokenizer").getD emptyDict) = .ok ()) :
    _load_config yaml_safe_load tokenizer_init_from_config
        chat_engine_from_config config_file =
      .error (.configError ("Config file " ++ config_file ++
        " must contain a \x27chat_engine\x27 section"))
    ∧ ∀ (getenv : String → Option String) (tokenizer_init : Except String Unit)
        (default_engines : String → Except String EngineSet)
        (kb_connect : String → Except String Unit) (index_name : String),
        getenv "INDEX_NAME" = some index_name → index_name ≠ "" →
        getenv "CANOPY_CONFIG_FILE" = some config_file → config_file ≠ "" →
        routes_reachable (_init_engines getenv yaml_safe_load
          tokenizer_init_from_config chat_engine_from_config tokenizer_init
          default_engines kb_connect) = false := by
  have h1 : _load_config yaml_safe_load tokenizer_init_from_config
      chat_engine_from_config config_file =
      .error (.configError ("Config file " ++ config_file ++
        " must contain a \x27chat_engine\x27 section")) := by
    simp [_load_config, hparse, htok, hmissing]
  refine ⟨h1, ?_⟩
  intro getenv tokenizer_init default_engines kb_connect index_name
    hidx hne hcf hcfne
  simp [_init_engines, hidx, hne, hcf, hcfne, h1, routes_reachable,
    Except.toOption]

/-- Claim C9, witness at a concrete input: a parsed configuration holding
only a tokenizer section yields the ConfigError demanding a chat_engine
section. -/
theorem c9_witness :
    _load_config (fun _ => Except.ok [("tokenizer", "tok-cfg")])
        (fun _ => Except.ok ()) (fun _ => Except.ok ⟨"kb", "ce", "che", "llm"⟩)
        "cfg.yaml" =
      Except.error (InitError.configError ("Config file " ++ "cfg.yaml" ++
        " must contain a \x27chat_engine\x27 section")) :=
  (c9_config_missing_chat_engine_section
    (fun _ => Except.ok [("tokenizer", "tok-cfg")]) (fun _ => Except.ok ())
    (fun _ => Except.ok ⟨"kb", "ce", "che", "llm"⟩) "cfg.yaml"
    [("tokenizer", "tok-cfg")] rfl (by decide) rfl).1

end Canopy
